import Mathlib

/-!
Verification development for the tabular analysis core of a dataset-analysis
assistant.  The core consists of a table loader with delimiter auto-detection
(`load_dataset`), a column validator (`validate_column_exists`), a schema
inspector (`get_dataset_info`, `dataset_summary`), a statistics engine
(`calculate_column_mean`, `calculate_column_std`, `analyze_column_skewness`)
and a categorical analyzer (`analyze_column_unique_values`).

The embedding models pandas machine floats by exact rationals.  Division of
a float by zero, NaN results and exact square roots are modelled explicitly:
`Option ℚ` values use `none` for NaN, `ratSqrt` recovers square roots that
are exactly representable (which covers every case the theorems below
evaluate), and rounding of `round(x, 2)` / `"{:.2f}"` is modelled as exact
rounding to nearest (tie behaviour of binary floats is not reproduced; no
theorem below depends on a tie).
-/

/-- One decimal digit as a character. -/
def digitChar : ℕ → Char
  | 0 => '0' | 1 => '1' | 2 => '2' | 3 => '3' | 4 => '4'
  | 5 => '5' | 6 => '6' | 7 => '7' | 8 => '8' | 9 => '9'
  | _ => '*'

/-- The `k` zero-padded decimal digits of a fractional part `m < 10 ^ k`,
most significant digit first; mirrors the digit grid a `"{:.kf}"` format
produces after the decimal point. -/
def fracDigitChars : ℕ → ℕ → List Char
  | 0, _ => []
  | k + 1, m => digitChar (m / 10 ^ k % 10) :: fracDigitChars k m

/-- Fuel-bounded decimal printer for naturals (structural recursion so
that the kernel can evaluate it; `n + 1` units of fuel always suffice). -/
def natDigitsFuel : ℕ → ℕ → List Char
  | 0, _ => []
  | f + 1, n =>
      if n < 10 then [digitChar n]
      else natDigitsFuel f (n / 10) ++ [digitChar (n % 10)]

/-- Decimal digits of a natural number. -/
def natToDigits (n : ℕ) : List Char :=
  natDigitsFuel (n + 1) n

/-- Decimal rendering of a natural number (Python `str`/`{x}` on an int). -/
def natRepr (n : ℕ) : String :=
  String.mk (natToDigits n)

/-- Decimal rendering of an integer. -/
def intRepr (z : ℤ) : String :=
  String.mk ((if z < 0 then ['-'] else []) ++ natToDigits z.natAbs)

/-- Insert a comma after every group of three digits; input is the digit list
least significant first. -/
def groupThrees : List Char → List Char
  | d1 :: d2 :: d3 :: d4 :: rest =>
      d1 :: d2 :: d3 :: ',' :: groupThrees (d4 :: rest)
  | l => l

/-- Python `"{:,}"` thousands-separated rendering of a count. -/
def intWithCommas (n : ℕ) : String :=
  String.mk ((groupThrees (natToDigits n).reverse).reverse)

/-- Python `"{:.precf}"` fixed-point rendering of a finite float, modelled on
an exact rational: scale by `10 ^ prec`, round to nearest, print the integer
part and exactly `prec` fractional digits. -/
def formatFixed (prec : ℕ) (q : ℚ) : String :=
  let scaled : ℤ := round (q * (10 : ℚ) ^ prec)
  let a : ℕ := scaled.natAbs
  String.mk ((if scaled < 0 then ['-'] else []) ++
    natToDigits (a / 10 ^ prec) ++ '.' :: fracDigitChars prec (a % 10 ^ prec))

/-- Fixed-point rendering of a possibly-NaN float: Python formats NaN with
any `"{:.kf}"` spec as the string `nan`. -/
def fmtOpt (prec : ℕ) : Option ℚ → String
  | none => "nan"
  | some q => formatFixed prec q

/-- Number of characters after the last decimal point of a rendered number:
the count of trailing characters up to the first `'.'` seen from the right. -/
def fracLen (s : String) : ℕ :=
  ((s.data.reverse).takeWhile (fun c => c != '.')).length

/-- Embedding of `round(x, 2)` of pandas/numpy, modelled as exact rounding to nearest on
the rational value. -/
def round2 (q : ℚ) : ℚ :=
  ((round (q * 100) : ℤ) : ℚ) / 100

/-- Does the character list start with the given pattern? -/
def charsStartWith : List Char → List Char → Bool
  | _, [] => true
  | [], _ :: _ => false
  | a :: as, b :: bs => a == b && charsStartWith as bs

/-- Does the character list contain the pattern as a contiguous run? -/
def charsHaveSub (l pat : List Char) : Bool :=
  charsStartWith l pat ||
    match l with
    | [] => false
    | _ :: as => charsHaveSub as pat

/-- Substring test on strings (Python `in` on str). -/
def strContains (s pat : String) : Bool :=
  charsHaveSub s.data pat.data

/-- Split a character list at every occurrence of the separator. -/
def splitCharsOn (sep : Char) : List Char → List (List Char)
  | [] => [[]]
  | c :: cs =>
      if c = sep then [] :: splitCharsOn sep cs
      else
        match splitCharsOn sep cs with
        | [] => [[c]]
        | g :: gs => (c :: g) :: gs

/-- Python `str.split(sep)` for a one-character separator (the only kind
this program uses). -/
def strSplitOn (sep : Char) (s : String) : List String :=
  (splitCharsOn sep s.data).map String.mk

/-- Python `str.endswith`. -/
def strEndsWith (s suffix : String) : Bool :=
  charsStartWith s.data.reverse suffix.data.reverse

/-- Python `c in s` for a single character. -/
def strHasChar (s : String) (c : Char) : Bool :=
  s.data.contains c

/-- An ASCII whitespace character (the kinds `str.strip` removes here). -/
def isSpaceChar (c : Char) : Bool :=
  c == ' ' || c == '\t' || c == '\r' || c == '\n'

/-- Python `str.strip()`. -/
def strStrip (s : String) : String :=
  String.mk (((s.data.dropWhile isSpaceChar).reverse.dropWhile isSpaceChar).reverse)

/-- Join strings with a separator (Python `sep.join`). -/
def joinWith (sep : String) : List String → String
  | [] => ""
  | [x] => x
  | x :: y :: xs => x ++ (sep ++ joinWith sep (y :: xs))

/-- Python `', '.join(names)`. -/
def joinComma : List String → String
  | [] => ""
  | [x] => x
  | x :: y :: xs => x ++ (", " ++ joinComma (y :: xs))

/-- Inferred pandas dtype of a loaded column, restricted to the cases the
CSV parser of this model can produce. -/
inductive Dtype
  | int64
  | float64
  | object
  deriving DecidableEq

/-- The dtype as pandas prints it. -/
def dtypeName : Dtype → String
  | .int64 => "int64"
  | .float64 => "float64"
  | .object => "object"

/-- Embedding of `pd.api.types.is_numeric_dtype`. -/
def isNumericDtype : Dtype → Bool
  | .object => false
  | _ => true

/-- One table cell: a numeric value, a text value, or missing (NaN). -/
inductive Cell
  | num (q : ℚ)
  | str (s : String)
  | null
  deriving DecidableEq

/-- Is the cell missing (`pd.isna`)? -/
def isNullCell : Cell → Bool
  | .null => true
  | _ => false

/-- Is the cell a text value? -/
def isStrCell : Cell → Bool
  | .str _ => true
  | _ => false

/-- A named column of cells. -/
structure Column where
  name : String
  cells : List Cell
  deriving DecidableEq

/-- An in-memory table: ordered named columns of uniform row count. -/
structure DataFrame where
  cols : List Column
  deriving DecidableEq

/-- Embedding of `df.columns.tolist()`. -/
def colNames (df : DataFrame) : List String :=
  df.cols.map Column.name

/-- Embedding of `len(df)`: the uniform row count (read off the first column). -/
def nRows (df : DataFrame) : ℕ :=
  match df.cols with
  | [] => 0
  | c :: _ => c.cells.length

/-- The cells of the column named `nm` (the caller validates existence; a
missing name yields the empty column). -/
def colCells (df : DataFrame) (nm : String) : List Cell :=
  match df.cols.find? (fun c => c.name == nm) with
  | some c => c.cells
  | none => []

/-- Pandas dtype inference for a parsed column: any text value makes it
`object`; an empty column is `object`; a missing value or a non-integral
numeric value makes it `float64`; otherwise `int64`. -/
def dtypeOf (cells : List Cell) : Dtype :=
  if cells.any isStrCell then .object
  else if cells.isEmpty then .object
  else if cells.any isNullCell ||
      cells.any (fun c => match c with | .num q => q.den != 1 | _ => false) then
    .float64
  else .int64

/-- Value of a decimal digit character. -/
def digitVal (c : Char) : Option ℕ :=
  if '0' ≤ c ∧ c ≤ '9' then some (c.toNat - 48) else none

/-- Parse a nonempty all-digit token as a natural number. -/
def digitsToNat (cs : List Char) : Option ℕ :=
  if cs.isEmpty then none
  else
    cs.foldl
      (fun acc c =>
        match acc, digitVal c with
        | some a, some d => some (a * 10 + d)
        | _, _ => none)
      (some 0)

/-- Parse a CSV token as a number, as the pandas CSV reader infers it:
an optional sign, an integer part, and an optional fractional part.
(Scientific notation is not modelled; such tokens fall back to text.) -/
def parseNumTok (s : String) : Option ℚ :=
  let cs := s.data
  let signed : Bool × List Char :=
    match cs with
    | '-' :: rest => (true, rest)
    | _ => (false, cs)
  let body := signed.2
  let intPart := body.takeWhile (fun c => c != '.')
  let rest := body.dropWhile (fun c => c != '.')
  let mag : Option ℚ :=
    match rest with
    | [] =>
        match digitsToNat intPart with
        | some n => some ((n : ℚ))
        | none => none
    | '.' :: fracPart =>
        match digitsToNat intPart, digitsToNat fracPart with
        | some n, some f =>
            some ((n : ℚ) + (f : ℚ) / ((10 : ℚ) ^ fracPart.length))
        | _, _ => none
    | _ => none
  match mag with
  | some q => some (if signed.1 then -q else q)
  | none => none

/-- Parse one CSV field: the empty field is missing (NaN), a numeric token
is a number, anything else is text. -/
def parseCell (tok : String) : Cell :=
  if tok = "" then .null
  else
    match parseNumTok tok with
    | some q => .num q
    | none => .str tok

/-- Split file content into lines, dropping blank lines as the pandas CSV
reader does (`skip_blank_lines=True`). -/
def splitLines (content : String) : List String :=
  (strSplitOn '\n' content).filter (fun l => l != "")

/-- Parse delimited text with the given separator into a table: the first
line is the header, later lines are rows, short rows are padded with NaN.
`none` models the `EmptyDataError` pandas raises on a file with no lines. -/
def parseCSV (sep : Char) (content : String) : Option DataFrame :=
  match splitLines content with
  | [] => none
  | header :: rows =>
      let names := strSplitOn sep header
      let rowVals := rows.map (fun r => strSplitOn sep r)
      some ⟨(names.enum).map (fun jn =>
        ⟨jn.2, rowVals.map (fun r => parseCell (r.getD jn.1 ""))⟩)⟩

/-- Delimiter auto-detection: semicolon if the first line (stripped)
contains one, otherwise comma. -/
def detectSep (content : String) : Char :=
  if strHasChar (strStrip ((strSplitOn '\n' content).headD "")) ';' then ';' else ','

/-- Error value for a missing file. -/
def fileNotFoundMsg (file_path : String) : String :=
  "❌ **Error**: File '" ++ (file_path ++ "' not found")

/-- Error value for an unrecognized extension. -/
def unsupportedFormatMsg : String :=
  "❌ **Error**: Unsupported file format. Supported formats: CSV, Parquet"

/-- Error value for a caught parse failure; the caught exception's text for
an empty CSV file is pandas' `EmptyDataError` message. -/
def loadFailMsg : String :=
  "❌ **Error loading dataset**: No columns to parse from file"

/-- Embedding of `load_dataset`: format dispatch by exact suffix, delimiter
auto-detection for CSV, and conversion of every failure into an error
string.  The file system is modelled as `fs : path → Option content` and
the external parquet reader as `pq : path → Option DataFrame` (`none` for a
missing file in both). -/
def load_dataset (fs : String → Option String) (pq : String → Option DataFrame)
    (file_path : String) : Sum DataFrame String :=
  if strEndsWith file_path ".csv" then
    match fs file_path with
    | none => .inr (fileNotFoundMsg file_path)
    | some content =>
        match parseCSV (detectSep content) content with
        | some df => .inl df
        | none => .inr loadFailMsg
  else if strEndsWith file_path ".parquet" then
    match pq file_path with
    | none => .inr (fileNotFoundMsg file_path)
    | some df => .inl df
  else .inr unsupportedFormatMsg

/-- The `ColumnNotFound` error message, enumerating every column name in
declared order. -/
def colNotFoundMsg (column_name : String) (names : List String) : String :=
  "❌ **Error**: Column '" ++
    (column_name ++ ("' not found in the dataset.\n\n**Available columns:** " ++
      joinComma names))

/-- Embedding of `validate_column_exists`: `True` when the column is present, otherwise
the `ColumnNotFound` error value. -/
def validate_column_exists (df : DataFrame) (column_name : String) :
    Sum Bool String :=
  if (colNames df).contains column_name then .inl true
  else .inr (colNotFoundMsg column_name (colNames df))

/-- The dataset-information snapshot `get_dataset_info` returns. -/
structure DatasetInfo where
  total_rows : ℕ
  total_cols : ℕ
  file_name : String
  columns : List String
  dtypes : List (String × Dtype)
  missing_counts : List (String × ℕ)

/-- Embedding of `get_dataset_info`. -/
def get_dataset_info (df : DataFrame) (file_path : String) : DatasetInfo :=
  { total_rows := nRows df
    total_cols := df.cols.length
    file_name := (strSplitOn '/' file_path).getLastD file_path
    columns := colNames df
    dtypes := df.cols.map (fun c => (c.name, dtypeOf c.cells))
    missing_counts := df.cols.map (fun c => (c.name, (c.cells.filter isNullCell).length)) }

/-- The non-missing numeric values of a column, in row order; every pandas
statistic below skips NaN (`skipna`) and works on this list. -/
def numsOf (cells : List Cell) : List ℚ :=
  cells.filterMap (fun c => match c with | .num q => some q | _ => none)

/-- Embedding of `Series.mean()`: NaN (here `none`) on an empty/all-missing column. -/
def meanOf (l : List ℚ) : Option ℚ :=
  if l.isEmpty then none else some (l.sum / (l.length : ℚ))

/-- Embedding of `Series.min()` over the non-missing values. -/
def listMinQ : List ℚ → Option ℚ
  | [] => none
  | x :: xs => some (xs.foldl min x)

/-- Embedding of `Series.max()` over the non-missing values. -/
def listMaxQ : List ℚ → Option ℚ
  | [] => none
  | x :: xs => some (xs.foldl max x)

/-- Insert into an ascending-sorted list of rationals. -/
def insertSortedQ (x : ℚ) : List ℚ → List ℚ
  | [] => [x]
  | y :: ys => if x ≤ y then x :: y :: ys else y :: insertSortedQ x ys

/-- Ascending sort of rationals. -/
def sortQ : List ℚ → List ℚ
  | [] => []
  | x :: xs => insertSortedQ x (sortQ xs)

/-- Embedding of `Series.quantile(p)` with pandas' default linear interpolation:
position `h = p * (n - 1)` in the ascending sort, interpolated between the
neighbouring order statistics; NaN on an empty column. -/
def quantileInterp (l : List ℚ) (p : ℚ) : Option ℚ :=
  match sortQ l with
  | [] => none
  | x :: xs =>
      let s := x :: xs
      let n := s.length
      let h : ℚ := p * ((n : ℚ) - 1)
      let i : ℕ := (Int.floor h).toNat
      let lo := s.getD i 0
      let hi := s.getD (min (i + 1) (n - 1)) 0
      some (lo + (h - (Int.floor h : ℚ)) * (hi - lo))

/-- Fuel-bounded Newton iteration for the integer square root (structural
recursion so that proofs can evaluate it). -/
def isqrtAux : ℕ → ℕ → ℕ → ℕ
  | 0, _, g => g
  | f + 1, n, g =>
      let g2 := (g + n / g) / 2
      if g2 < g then isqrtAux f n g2 else g

/-- Integer square root. -/
def isqrt (n : ℕ) : ℕ :=
  if n ≤ 1 then n else isqrtAux n n (n / 2 + 1)

/-- The exact square root of a rational when one exists in `ℚ`.  The code
takes a machine-float square root; this model recovers it exactly whenever
the radicand is a perfect square (every case a theorem below evaluates) and
returns `none` otherwise.  A reduced rational is a square exactly when its
numerator and denominator are perfect squares, so the test runs on them. -/
def ratSqrt (q : ℚ) : Option ℚ :=
  if q.num < 0 then none
  else
    let sn := isqrt q.num.natAbs
    let sd := isqrt q.den
    if sn * sn = q.num.natAbs ∧ sd * sd = q.den then some ((sn : ℚ) / (sd : ℚ))
    else none

/-- Embedding of `Series.var()`: the sample variance with divisor `n - 1`; NaN for fewer
than two values. -/
def sampleVar (l : List ℚ) : Option ℚ :=
  if l.length ≤ 1 then none
  else
    match meanOf l with
    | none => none
    | some m => some ((l.map (fun x => (x - m) * (x - m))).sum / ((l.length : ℚ) - 1))

/-- Embedding of `Series.std()`: the square root of the sample variance. -/
def sampleStd (l : List ℚ) : Option ℚ :=
  (sampleVar l).bind ratSqrt

/-- Embedding of `Series.skew()`: the bias-corrected Fisher-Pearson estimator pandas
computes, `n·√(n-1)/(n-2) · m₃/m₂^{3/2}` on centered power sums `m₂`, `m₃`;
pandas special-cases `m₂ == 0` to `0` and fewer than three values to NaN. -/
def skewnessOf (l : List ℚ) : Option ℚ :=
  let n := l.length
  if n < 3 then none
  else
    match meanOf l with
    | none => none
    | some m =>
        let m2 := (l.map (fun x => (x - m) * (x - m))).sum
        let m3 := (l.map (fun x => (x - m) * (x - m) * (x - m))).sum
        if m2 = 0 then some 0
        else
          match ratSqrt ((n : ℚ) - 1), ratSqrt m2 with
          | some s1, some s2 =>
              some ((n : ℚ) * s1 / ((n : ℚ) - 2) * (m3 / (m2 * s2)))
          | _, _ => none

/-- Embedding of `Series.kurtosis()`: pandas' adjusted excess kurtosis
`n(n+1)(n-1)·m₄ / ((n-2)(n-3)·m₂²) − 3(n-1)²/((n-2)(n-3))`; pandas
special-cases a zero denominator to `0` and fewer than four values to NaN. -/
def kurtosisOf (l : List ℚ) : Option ℚ :=
  let n := l.length
  if n < 4 then none
  else
    match meanOf l with
    | none => none
    | some m =>
        let m2 := (l.map (fun x => (x - m) * (x - m))).sum
        let m4 := (l.map (fun x => (x - m) * (x - m) * ((x - m) * (x - m)))).sum
        let denom := ((n : ℚ) - 2) * ((n : ℚ) - 3) * (m2 * m2)
        if denom = 0 then some 0
        else
          some ((n : ℚ) * ((n : ℚ) + 1) * ((n : ℚ) - 1) * m4 / denom -
            3 * ((n : ℚ) - 1) * ((n : ℚ) - 1) / (((n : ℚ) - 2) * ((n : ℚ) - 3)))

/-- Fuel-bounded distinct-element extraction (structural recursion so the
kernel can evaluate it; a fuel of the list's length always suffices). -/
def uniqFuel {α : Type} [DecidableEq α] : ℕ → List α → List α
  | _, [] => []
  | 0, _ :: _ => []
  | f + 1, x :: xs => x :: uniqFuel f (xs.filter (fun y => y != x))

/-- The distinct elements of a list in first-occurrence order. -/
def uniqList {α : Type} [DecidableEq α] (l : List α) : List α :=
  uniqFuel l.length l

/-- Embedding of `Series.mode().iloc[0]` guarded by emptiness: the smallest among the
most frequent values, `none` when there are no values. -/
def modeOf (l : List ℚ) : Option ℚ :=
  let counts := (uniqList l).map (fun v => (v, l.count v))
  let mc := (counts.map Prod.snd).foldl max 0
  match (counts.filter (fun vc => vc.2 == mc)).map Prod.fst with
  | [] => none
  | c :: cs => some (cs.foldl min c)

/-- Insert into a count-descending list, after any entry of equal count
(stable descending insertion). -/
def insertByCount (x : Cell × ℕ) : List (Cell × ℕ) → List (Cell × ℕ)
  | [] => [x]
  | y :: ys => if y.2 ≤ x.2 then x :: y :: ys else y :: insertByCount x ys

/-- Stable sort by descending count. -/
def sortByCountDesc : List (Cell × ℕ) → List (Cell × ℕ)
  | [] => []
  | x :: xs => insertByCount x (sortByCountDesc xs)

/-- Embedding of `Series.value_counts()`: frequency of each distinct non-missing value,
in descending-count order; missing values are dropped (`dropna=True`, the
pandas default), so no NaN bucket ever appears. -/
def valueCounts (cells : List Cell) : List (Cell × ℕ) :=
  let nn := cells.filter (fun c => !isNullCell c)
  sortByCountDesc ((uniqList nn).map (fun v => (v, nn.count v)))

/-- Embedding of `(value_counts / total_rows * 100).round(2)`: each distinct value's
percentage of all rows, rounded to 2 decimals, in `value_counts` order. -/
def percentList (total : ℕ) (cells : List Cell) : List ℚ :=
  (valueCounts cells).map (fun vc => round2 ((vc.2 : ℚ) / (total : ℚ) * 100))

/-- The coefficient-of-variation value: finite, `+∞` (the `mean == 0`
special case), or NaN (propagated from a NaN std or mean). -/
inductive CVVal
  | fin (q : ℚ)
  | inf
  | nan
  deriving DecidableEq

/-- Embedding of `cv = std / mean * 100 if mean != 0 else float('inf')`; a NaN mean
compares unequal to zero in Python, so it falls into the division, which
then yields NaN. -/
def cvOf (std mean : Option ℚ) : CVVal :=
  if mean = some 0 then .inf
  else
    match std, mean with
    | some s, some m => .fin (s / m * 100)
    | _, _ => .nan

/-- Insight line for low variability. -/
def cvLowLine : String :=
  "- **Variability:** Low variability (CV < 15%)\n"

/-- Insight line for moderate variability. -/
def cvModerateLine : String :=
  "- **Variability:** Moderate variability (CV 15-35%)\n"

/-- Insight line for high variability. -/
def cvHighLine : String :=
  "- **Variability:** High variability (CV > 35%)\n"

/-- The CV classification chain `cv < 15` / `elif cv < 35` / `else`;
`inf` and NaN fail both comparisons and land in the `else` branch. -/
def classifyCVLine : CVVal → String
  | .fin q => if q < 15 then cvLowLine else if q < 35 then cvModerateLine else cvHighLine
  | .inf => cvHighLine
  | .nan => cvHighLine

/-- Rendering of `"{cv:.2f}"` where cv may be infinite or NaN. -/
def fmtCV : CVVal → String
  | .fin q => formatFixed 2 q
  | .inf => "inf"
  | .nan => "nan"

/-- Insight line for a symmetric distribution. -/
def distSymLine : String :=
  "- **Distribution:** Mean equals median, suggesting a symmetric distribution\n"

/-- Insight line for a right-skewed distribution. -/
def distRightLine : String :=
  "- **Distribution:** Mean is greater than median, suggesting right-skewed distribution\n"

/-- Insight line for a left-skewed distribution. -/
def distLeftLine : String :=
  "- **Distribution:** Mean is less than median, suggesting left-skewed distribution\n"

/-- The mean-vs-median classification chain `mean == median` /
`elif mean > median` / `else`; NaN fails both comparisons and lands in the
`else` branch. -/
def distLine (mean median : Option ℚ) : String :=
  match mean, median with
  | some m, some d => if m = d then distSymLine else if m > d then distRightLine else distLeftLine
  | _, _ => distLeftLine

/-- Python `str()` of a float whose decimal expansion terminates (every
numeric value the CSV parser produces): the minimal number of fractional
digits, at least one.  Non-terminating values cannot arise from parsed
data; they fall back to 20 digits. -/
def floatRepr (q : ℚ) : String :=
  let k := (((List.range 20).map (fun j => j + 1)).findSome?
    (fun k => if (q * (10 : ℚ) ^ k).den == 1 then some k else none)).getD 20
  let scaled : ℤ := (q * (10 : ℚ) ^ k).num
  let a := scaled.natAbs
  String.mk ((if scaled < 0 then ['-'] else []) ++
    natToDigits (a / 10 ^ k) ++ '.' :: fracDigitChars k (a % 10 ^ k))

/-- Python `str()` of a numeric cell: integers of an `int64` column print
without a decimal point, values of a `float64` column print as floats. -/
def pyShow (dt : Dtype) (q : ℚ) : String :=
  match dt with
  | .int64 => intRepr q.num
  | _ => floatRepr q

/-- Display form of a cell in the unique-values table: missing values
display as `NULL/NaN`, everything else via `str()`. -/
def displayCell (dt : Dtype) : Cell → String
  | .null => "NULL/NaN"
  | .str s => s
  | .num q => pyShow dt q

/-- Display form of a `value_counts` index entry (never missing, since
`value_counts` drops NaN): plain `str()`. -/
def displayRaw (dt : Dtype) : Cell → String
  | .null => "nan"
  | .str s => s
  | .num q => pyShow dt q

/-- The `NotNumeric` error message, naming the column's actual dtype. -/
def notNumericMsg (column_name : String) (dt : Dtype) : String :=
  "❌ **Error**: Column '" ++
    (column_name ++ ("' is not numeric. Data type: " ++ dtypeName dt))

/-- The shared `## Dataset Information` block of the three statistical
reports. -/
def datasetInfoBlock (file_name column_name : String) (total_rows valid_rows null_count : ℕ)
    (dt : Dtype) : String :=
  "## Dataset Information\n- **Dataset:** " ++
    (file_name ++ ("\n- **Column:** " ++
    (column_name ++ ("\n- **Total Rows:** " ++
    (intWithCommas total_rows ++ ("\n- **Valid Rows:** " ++
    (intWithCommas valid_rows ++ ("\n- **Missing Values:** " ++
    (intWithCommas null_count ++ ("\n- **Data Type:** " ++ dtypeName dt))))))))))

/-- The data-quality insight emitted when missing values were excluded. -/
def missingLine (null_count total_rows : ℕ) (verb : String) : String :=
  "- **Data Quality:** " ++
    (intWithCommas null_count ++ (" missing values (" ++
    (formatFixed 2 ((null_count : ℚ) / (total_rows : ℚ) * 100) ++
    ("%) were excluded from " ++ (verb ++ "\n")))))

/-- The 25/50/75th percentile insight lines shared by the mean and std
reports. -/
def percentileLines3 (nums : List ℚ) : String :=
  "- **25th Percentile:** " ++
    (fmtOpt 4 (quantileInterp nums (1 / 4)) ++ ("\n- **50th Percentile (Median):** " ++
    (fmtOpt 4 (quantileInterp nums (1 / 2)) ++ ("\n- **75th Percentile:** " ++
    (fmtOpt 4 (quantileInterp nums (3 / 4)) ++ "\n")))))

/-- Embedding of `calculate_column_mean`: load, validate, check numeric dtype, then
render the mean report. -/
def calculate_column_mean (fs : String → Option String) (pq : String → Option DataFrame)
    (file_path column_name : String) : String :=
  match load_dataset fs pq file_path with
  | .inr err => err
  | .inl df =>
    match validate_column_exists df column_name with
    | .inr err => err
    | .inl _ =>
      let cells := colCells df column_name
      let dt := dtypeOf cells
      if !isNumericDtype dt then notNumericMsg column_name dt
      else
        let info := get_dataset_info df file_path
        let nums := numsOf cells
        let mean_value := meanOf nums
        let total_rows := info.total_rows
        let null_count := (cells.filter isNullCell).length
        let valid_rows := total_rows - null_count
        let mn := listMinQ nums
        let mx := listMaxQ nums
        let rng : Option ℚ := match mx, mn with
          | some a, some b => some (a - b)
          | _, _ => none
        let med := quantileInterp nums (1 / 2)
        "# Mean Analysis: " ++
          (column_name ++ ("\n\n" ++
          (datasetInfoBlock info.file_name column_name total_rows valid_rows null_count dt ++
          ("\n\n## Mean Calculation\n- **Mean Value:** " ++
          (fmtOpt 4 mean_value ++
          ("\n\n## Additional Statistics\n- **Minimum:** " ++
          (fmtOpt 4 mn ++ ("\n- **Maximum:** " ++
          (fmtOpt 4 mx ++ ("\n- **Range:** " ++
          (fmtOpt 4 rng ++ ("\n- **Median:** " ++
          (fmtOpt 4 med ++ ("\n\n## Insights\n" ++
          ((if null_count > 0 then missingLine null_count total_rows "calculation" else "") ++
          (distLine mean_value med ++ percentileLines3 nums))))))))))))))))

/-- The spread insight of the std report: `std > IQR` flags potential
outliers; a NaN std fails the comparison. -/
def spreadLine (std iqr : Option ℚ) : String :=
  let gt : Bool := match std, iqr with
    | some s, some i => decide (i < s)
    | _, _ => false
  if gt then
    "- **Spread:** Standard deviation is greater than IQR, indicating potential outliers\n"
  else
    "- **Spread:** Standard deviation is less than IQR, indicating relatively normal distribution\n"

/-- Embedding of `calculate_column_std`: load, validate, check numeric dtype, then
render the standard-deviation report with CV classification. -/
def calculate_column_std (fs : String → Option String) (pq : String → Option DataFrame)
    (file_path column_name : String) : String :=
  match load_dataset fs pq file_path with
  | .inr err => err
  | .inl df =>
    match validate_column_exists df column_name with
    | .inr err => err
    | .inl _ =>
      let cells := colCells df column_name
      let dt := dtypeOf cells
      if !isNumericDtype dt then notNumericMsg column_name dt
      else
        let info := get_dataset_info df file_path
        let nums := numsOf cells
        let std_value := sampleStd nums
        let mean_value := meanOf nums
        let total_rows := info.total_rows
        let null_count := (cells.filter isNullCell).length
        let valid_rows := total_rows - null_count
        let cv := cvOf std_value mean_value
        let var := sampleVar nums
        let mn := listMinQ nums
        let mx := listMaxQ nums
        let rng : Option ℚ := match mx, mn with
          | some a, some b => some (a - b)
          | _, _ => none
        let q1 := quantileInterp nums (1 / 4)
        let q3 := quantileInterp nums (3 / 4)
        let iqr : Option ℚ := match q3, q1 with
          | some a, some b => some (a - b)
          | _, _ => none
        "# Standard Deviation Analysis: " ++
          (column_name ++ ("\n\n" ++
          (datasetInfoBlock info.file_name column_name total_rows valid_rows null_count dt ++
          ("\n\n## Standard Deviation Calculation\n- **Standard Deviation:** " ++
          (fmtOpt 4 std_value ++ ("\n- **Mean:** " ++
          (fmtOpt 4 mean_value ++ ("\n- **Coefficient of Variation:** " ++
          (fmtCV cv ++ ("%\n\n## Additional Statistics\n- **Variance:** " ++
          (fmtOpt 4 var ++ ("\n- **Minimum:** " ++
          (fmtOpt 4 mn ++ ("\n- **Maximum:** " ++
          (fmtOpt 4 mx ++ ("\n- **Range:** " ++
          (fmtOpt 4 rng ++ ("\n\n## Insights\n" ++
          ((if null_count > 0 then missingLine null_count total_rows "calculation" else "") ++
          (classifyCVLine cv ++
          (percentileLines3 nums ++
          ("- **Interquartile Range (IQR):** " ++
          (fmtOpt 4 iqr ++ ("\n" ++
          spreadLine std_value iqr))))))))))))))))))))))))

/-- The skewness classification chain of the skew report; NaN lands in the
`else` (left-skewed) branch. -/
def skewClassLine (s : Option ℚ) : String :=
  match s with
  | some v =>
      if |v| < 1 / 2 then "- **Skewness:** Approximately symmetric (|skewness| < 0.5)\n"
      else if v > 1 / 2 then "- **Skewness:** Right-skewed (positive skewness > 0.5)\n"
      else "- **Skewness:** Left-skewed (negative skewness < -0.5)\n"
  | none => "- **Skewness:** Left-skewed (negative skewness < -0.5)\n"

/-- The kurtosis classification chain of the skew report; NaN lands in the
`else` (platykurtic) branch. -/
def kurtClassLine (k : Option ℚ) : String :=
  match k with
  | some v =>
      if |v| < 2 then "- **Kurtosis:** Mesokurtic (normal-like peaks, |kurtosis| < 2)\n"
      else if v > 2 then "- **Kurtosis:** Leptokurtic (sharp peaks, kurtosis > 2)\n"
      else "- **Kurtosis:** Platykurtic (flat peaks, kurtosis < -2)\n"
  | none => "- **Kurtosis:** Platykurtic (flat peaks, kurtosis < -2)\n"

/-- The mean-vs-median comparison of the skew report; NaN lands in the
`else` branch. -/
def centralLine (mean med : Option ℚ) : String :=
  match mean, med with
  | some m, some d =>
      if |m - d| < 1 / 100 then
        "- **Mean vs Median:** Very close, suggesting symmetric distribution\n"
      else if m > d then "- **Mean vs Median:** Mean > Median, indicating right skew\n"
      else "- **Mean vs Median:** Mean < Median, indicating left skew\n"
  | _, _ => "- **Mean vs Median:** Mean < Median, indicating left skew\n"

/-- The quartile-skewness interpretation chain; NaN lands in the `else`
branch. -/
def quartileSkewInterp (qs : Option ℚ) : String :=
  match qs with
  | some v =>
      if |v| < 1 / 10 then "  - **Interpretation:** Symmetric distribution around median\n"
      else if v > 1 / 10 then "  - **Interpretation:** Right-skewed distribution\n"
      else "  - **Interpretation:** Left-skewed distribution\n"
  | none => "  - **Interpretation:** Left-skewed distribution\n"

/-- The normality recommendation of the skew report; a NaN skewness or
kurtosis fails the condition. -/
def normalityLine (s k : Option ℚ) : String :=
  let ok : Bool := match s, k with
    | some sv, some kv => decide (|sv| < 1 / 2 ∧ |kv| < 2)
    | _, _ => false
  if ok then
    "- **Statistical Tests:** Data appears approximately normal, parametric tests may be appropriate\n"
  else
    "- **Statistical Tests:** Data is non-normal, consider non-parametric tests or data transformation\n"

/-- The transformation suggestion of the skew report; NaN suggests
nothing. -/
def transformLine (s : Option ℚ) : String :=
  match s with
  | some v =>
      if v > 1 then
        "- **Transformations:** Consider log transformation or square root transformation to reduce right skew\n"
      else if v < -1 then
        "- **Transformations:** Consider square transformation to reduce left skew\n"
      else ""
  | none => ""

/-- Embedding of `analyze_column_skewness`: load, validate, check numeric dtype, then
render the distribution-shape report. -/
def analyze_column_skewness (fs : String → Option String) (pq : String → Option DataFrame)
    (file_path column_name : String) : String :=
  match load_dataset fs pq file_path with
  | .inr err => err
  | .inl df =>
    match validate_column_exists df column_name with
    | .inr err => err
    | .inl _ =>
      let cells := colCells df column_name
      let dt := dtypeOf cells
      if !isNumericDtype dt then notNumericMsg column_name dt
      else
        let info := get_dataset_info df file_path
        let nums := numsOf cells
        let skewness := skewnessOf nums
        let kurtosis := kurtosisOf nums
        let mean_value := meanOf nums
        let median_value := quantileInterp nums (1 / 2)
        let mode_show := match modeOf nums with
          | some q => pyShow dt q
          | none => "No unique mode"
        let total_rows := info.total_rows
        let null_count := (cells.filter isNullCell).length
        let valid_rows := total_rows - null_count
        let p10 := quantileInterp nums (1 / 10)
        let q1 := quantileInterp nums (1 / 4)
        let q2 := quantileInterp nums (1 / 2)
        let q3 := quantileInterp nums (3 / 4)
        let p90 := quantileInterp nums (9 / 10)
        let qs : Option ℚ := match q1, q2, q3 with
          | some a, some b, some c => some ((c - b) - (b - a))
          | _, _, _ => none
        "# Distribution Skewness Analysis: " ++
          (column_name ++ ("\n\n" ++
          (datasetInfoBlock info.file_name column_name total_rows valid_rows null_count dt ++
          ("\n\n## Distribution Shape Analysis\n- **Skewness:** " ++
          (fmtOpt 4 skewness ++ ("\n- **Kurtosis:** " ++
          (fmtOpt 4 kurtosis ++ ("\n- **Mean:** " ++
          (fmtOpt 4 mean_value ++ ("\n- **Median:** " ++
          (fmtOpt 4 median_value ++ ("\n- **Mode:** " ++
          (mode_show ++ ("\n\n## Distribution Classification\n" ++
          (skewClassLine skewness ++
          (kurtClassLine kurtosis ++
          ("\n## Central Tendency Comparison\n" ++
          (centralLine mean_value median_value ++
          ("\n## Percentile Analysis\n- **10th Percentile:** " ++
          (fmtOpt 4 p10 ++ ("\n- **25th Percentile:** " ++
          (fmtOpt 4 q1 ++ ("\n- **50th Percentile (Median):** " ++
          (fmtOpt 4 q2 ++ ("\n- **75th Percentile:** " ++
          (fmtOpt 4 q3 ++ ("\n- **90th Percentile:** " ++
          (fmtOpt 4 p90 ++ ("\n- **Quartile Skewness:** " ++
          (fmtOpt 4 qs ++ ("\n" ++
          (quartileSkewInterp qs ++
          ("\n## Insights\n" ++
          ((if null_count > 0 then missingLine null_count total_rows "analysis" else "") ++
          (normalityLine skewness kurtosis ++
          transformLine skewness)))))))))))))))))))))))))))))))))))

/-- One row of the `## Numeric Column Statistics` table of the dataset
summary: count via `"{:,.0f}"`, all statistics via `"{:.2f}"`. -/
def numericStatsRow (name : String) (cnt : ℕ)
    (mean std mn q1 med q3 mx : Option ℚ) : String :=
  "\n| " ++ (name ++ (" | " ++ (intWithCommas cnt ++ (" | " ++
    (fmtOpt 2 mean ++ (" | " ++ (fmtOpt 2 std ++ (" | " ++
    (fmtOpt 2 mn ++ (" | " ++ (fmtOpt 2 q1 ++ (" | " ++
    (fmtOpt 2 med ++ (" | " ++ (fmtOpt 2 q3 ++ (" | " ++
    (fmtOpt 2 mx ++ " |")))))))))))))))))

/-- The missing-percentage cell of the summary's missing-values table;
on a zero-row table the numpy division yields NaN rather than raising. -/
def fmtMissingPct (missing_count total_rows : ℕ) : String :=
  if total_rows = 0 then "nan"
  else formatFixed 2 ((missing_count : ℚ) / (total_rows : ℚ) * 100)

/-- Embedding of `df.head().to_string()`, modelled as a plain whitespace-separated
rendering of the header and first five rows (the exact pandas column
alignment is presentation-only and not reproduced; no theorem inspects
this block). -/
def headToString (df : DataFrame) : String :=
  joinWith "\n"
    ((joinWith "  " (colNames df)) ::
      (List.range (min 5 (nRows df))).map (fun i =>
        joinWith "  " (df.cols.map (fun c =>
          match c.cells.getD i .null with
          | .null => "NaN"
          | .str s => s
          | .num q => pyShow (dtypeOf c.cells) q))))

/-- Embedding of `dataset_summary`: load, then render basic info, dtype table,
missing-value table, the numeric-column statistics table (when a numeric
column exists) and a sample-data block. -/
def dataset_summary (fs : String → Option String) (pq : String → Option DataFrame)
    (file_path : String) : String :=
  match load_dataset fs pq file_path with
  | .inr err => err
  | .inl df =>
    let info := get_dataset_info df file_path
    let numeric_cols := df.cols.filter (fun c => isNumericDtype (dtypeOf c.cells))
    let statsBlock :=
      if numeric_cols.isEmpty then ""
      else
        "\n\n## Numeric Column Statistics" ++
          ("\n| Column | Count | Mean | Std | Min | 25% | 50% | 75% | Max |" ++
          ("\n|--------|-------|------|-----|-----|-----|-----|-----|-----|" ++
          String.join (numeric_cols.map (fun c =>
            let nums := numsOf c.cells
            numericStatsRow c.name nums.length (meanOf nums) (sampleStd nums)
              (listMinQ nums) (quantileInterp nums (1 / 4))
              (quantileInterp nums (1 / 2)) (quantileInterp nums (3 / 4))
              (listMaxQ nums)))))
    "# Dataset Summary: " ++
      (info.file_name ++ ("\n\n## Basic Information\n- **Total Rows:** " ++
      (intWithCommas info.total_rows ++ ("\n- **Total Columns:** " ++
      (natRepr info.total_cols ++ ("\n\n## Data Types\n| Column | Data Type |\n|--------|-----------|" ++
      (String.join (info.dtypes.map (fun cd =>
        "\n| " ++ (cd.1 ++ (" | " ++ (dtypeName cd.2 ++ " |"))))) ++
      ("\n\n## Missing Values\n| Column | Missing Count | Missing % |\n|--------|---------------|-----------|" ++
      (String.join (info.missing_counts.map (fun cm =>
        "\n| " ++ (cm.1 ++ (" | " ++ (intWithCommas cm.2 ++ (" | " ++
          (fmtMissingPct cm.2 info.total_rows ++ "% |"))))))) ++
      (statsBlock ++
      ("\n\n## Sample Data (First 5 rows)\n```\n" ++
      (headToString df ++ "\n```"))))))))))))

/-- An uncaught Python exception escaping an operation's boundary. -/
inductive RaisedError
  | indexError
  deriving DecidableEq

/-- Did the embedded operation raise rather than return? -/
def exceptRaises {ε α : Type} : Except ε α → Bool
  | .error _ => true
  | .ok _ => false

/-- The rows of the unique-values table, accumulating the cumulative
percentage down the sorted list. -/
def uvRows (dt : Dtype) : List (Cell × ℕ) → List ℚ → ℚ → String
  | [], _, _ => ""
  | (v, c) :: rest, pcts, cum =>
      let pct := pcts.headD 0
      let cum2 := cum + pct
      "\n| " ++ (displayCell dt v ++ (" | " ++ (intWithCommas c ++ (" | " ++
        (formatFixed 2 pct ++ ("% | " ++ (formatFixed 2 cum2 ++
        ("% |" ++ uvRows dt rest pcts.tail cum2))))))))

/-- The rows of the condensed top-5 table. -/
def top5Rows (dt : Dtype) (rank : ℕ) : List (Cell × ℕ) → List ℚ → String
  | [], _ => ""
  | (v, c) :: rest, pcts =>
      "\n| " ++ (natRepr rank ++ (" | " ++ (displayCell dt v ++ (" | " ++
        (intWithCommas c ++ (" | " ++ (formatFixed 2 (pcts.headD 0) ++
        ("% |" ++ top5Rows dt (rank + 1) rest pcts.tail))))))))

/-- The distribution-variety insight line. -/
def varietyLine (n : ℕ) : String :=
  if n ≤ 10 then "\n- **Distribution:** " ++ (natRepr n ++ " unique values (good variety)")
  else if n ≤ 50 then "\n- **Distribution:** " ++ (natRepr n ++ " unique values (moderate variety)")
  else "\n- **Distribution:** " ++ (natRepr n ++ " unique values (high variety)")

/-- Embedding of `analyze_column_unique_values`: load, validate, then render the
frequency table.  The summary section reads `value_counts.index[0]`, which
raises `IndexError` when `value_counts` is empty (an all-missing or
zero-row column); the embedding surfaces that as `Except.error`, every
other path returns `Except.ok` with the report or error string. -/
def analyze_column_unique_values (fs : String → Option String)
    (pq : String → Option DataFrame) (file_path column_name : String) :
    Except RaisedError String :=
  match load_dataset fs pq file_path with
  | .inr err => .ok err
  | .inl df =>
    match validate_column_exists df column_name with
    | .inr err => .ok err
    | .inl _ =>
      let info := get_dataset_info df file_path
      let cells := colCells df column_name
      let dt := dtypeOf cells
      let vcs := valueCounts cells
      let total_rows := info.total_rows
      let pcts := percentList total_rows cells
      let header :=
        "# Column Analysis: " ++
          (column_name ++ ("\n\n## Dataset Information\n- **Dataset:** " ++
          (info.file_name ++ ("\n- **Column:** " ++
          (column_name ++ ("\n- **Total Rows:** " ++
          (intWithCommas total_rows ++ ("\n- **Unique Values:** " ++
          (intWithCommas vcs.length ++ ("\n- **Data Type:** " ++
          (dtypeName dt ++
          ("\n\n## Unique Values Analysis\n| Value | Count | Percentage | Cumulative % |" ++
          ("\n|-------|-------|------------|--------------|" ++
          uvRows dt vcs pcts 0)))))))))))))
      match vcs, pcts with
      | (v0, _) :: _, p0 :: _ =>
          let vl := (vcs.getLastD (v0, 0)).1
          let pl := pcts.getLastD p0
          let null_count := (cells.filter isNullCell).length
          let missingBlock :=
            if null_count > 0 then
              "\n- **Missing Values:** " ++
                (intWithCommas null_count ++ (" (" ++
                (formatFixed 2 ((null_count : ℚ) / (total_rows : ℚ) * 100) ++ "%)")))
            else "\n- **Missing Values:** None"
          let top5 :=
            if vcs.length > 10 then
              "\n\n## Top 5 Most Common Values" ++
                ("\n| Rank | Value | Count | Percentage |" ++
                ("\n|------|-------|-------|------------|" ++
                top5Rows dt 1 (vcs.take 5) (pcts.take 5)))
            else ""
          .ok (header ++
            ("\n\n## Summary Statistics\n- **Most Common Value:** " ++
            (displayRaw dt v0 ++ (" (" ++
            (formatFixed 2 p0 ++ ("%)" ++
            ("\n- **Least Common Value:** " ++
            (displayRaw dt vl ++ (" (" ++
            (formatFixed 2 pl ++ ("%)" ++
            (missingBlock ++
            (varietyLine vcs.length ++ top5)))))))))))))
      | _, _ => .error .indexError

/-- A file system with no parquet files (used by concrete evaluations). -/
def pqNone : String → Option DataFrame := fun _ => none

/-- A file system holding one CSV whose column `b` is entirely missing. -/
def fsAllMissing : String → Option String :=
  fun p => if p == "data.csv" then some "a,b\n1,\n2,\n" else none

/-- A file system holding one CSV whose column `b` is text. -/
def fsTextCol : String → Option String :=
  fun p => if p == "t.csv" then some "a,b\n1,x\n2,y\n" else none

/-- The table `fsTextCol`'s CSV parses to. -/
def dfTextCol : DataFrame :=
  ⟨[⟨"a", [.num 1, .num 2]⟩, ⟨"b", [.str "x", .str "y"]⟩]⟩

/-- A file system holding one semicolon-delimited CSV. -/
def fsSemi : String → Option String :=
  fun p => if p == "data.csv" then some "a;b\n1;2\n" else none

/-- The table `fsSemi`'s CSV parses to. -/
def dfSemi : DataFrame :=
  ⟨[⟨"a", [.num 1]⟩, ⟨"b", [.num 2]⟩]⟩

/-- A three-column table for the validator scenario. -/
def dfThreeCols : DataFrame :=
  ⟨[⟨"id", []⟩, ⟨"name", []⟩, ⟨"value", []⟩]⟩

/-- A column with two occurrences of `x` and one missing value. -/
def cellsNullPct : List Cell := [.str "x", .str "x", .null]

/-- The categorical column of end-to-end scenario 2. -/
def cellsScenario2 : List Cell :=
  [.str "A", .str "B", .str "A", .str "C", .str "B"]

theorem fracDigitChars_length (k m : ℕ) : (fracDigitChars k m).length = k := by
  induction k generalizing m with
  | zero => rfl
  | succ k ih => simp [fracDigitChars, ih]

theorem digitChar_ne_dot (n : ℕ) : (digitChar n != '.') = true := by
  unfold digitChar
  split <;> decide

theorem fracDigitChars_ne_dot (k m : ℕ) :
    ∀ c ∈ fracDigitChars k m, (c != '.') = true := by
  induction k generalizing m with
  | zero => intro c hc; simp [fracDigitChars] at hc
  | succ k ih =>
      intro c hc
      simp only [fracDigitChars, List.mem_cons] at hc
      rcases hc with h | h
      · subst h; exact digitChar_ne_dot _
      · exact ih m c h

theorem takeWhile_stops_at_dot (xs ys : List Char)
    (h : ∀ c ∈ xs, (c != '.') = true) :
    ((xs ++ '.' :: ys).takeWhile (fun c => c != '.')) = xs := by
  induction xs with
  | nil => simp [List.takeWhile]
  | cons a as ih =>
      have ha := h a (by simp)
      have has : ∀ c ∈ as, (c != '.') = true := fun c hc => h c (by simp [hc])
      simp [List.takeWhile, ha, ih has]

theorem fracLen_formatFixed (prec : ℕ) (q : ℚ) :
    fracLen (formatFixed prec q) = prec := by
  unfold formatFixed fracLen
  set sg : List Char :=
    (if round (q * (10 : ℚ) ^ prec) < 0 then ['-'] else []) with hsg
  set ip : List Char :=
    natToDigits ((round (q * (10 : ℚ) ^ prec)).natAbs / 10 ^ prec) with hip
  set fr : List Char :=
    fracDigitChars prec ((round (q * (10 : ℚ) ^ prec)).natAbs % 10 ^ prec) with hfr
  have hdata : (String.mk (sg ++ ip ++ '.' :: fr)).data = sg ++ ip ++ '.' :: fr := rfl
  rw [hdata]
  have hrev : (sg ++ ip ++ '.' :: fr).reverse = fr.reverse ++ '.' :: (sg ++ ip).reverse := by
    simp [List.reverse_append, List.reverse_cons, List.append_assoc]
  rw [hrev, takeWhile_stops_at_dot _ _ (fun c hc => fracDigitChars_ne_dot prec _ c
    (List.mem_reverse.mp hc))]
  simp [hfr, fracDigitChars_length]

theorem insertByCount_perm (x : Cell × ℕ) (l : List (Cell × ℕ)) :
    (insertByCount x l).Perm (x :: l) := by
  induction l with
  | nil => exact List.Perm.refl _
  | cons y ys ih =>
      unfold insertByCount
      split
      · exact List.Perm.refl _
      · exact (ih.cons y).trans (List.Perm.swap x y ys)

theorem sortByCountDesc_perm (l : List (Cell × ℕ)) :
    (sortByCountDesc l).Perm l := by
  induction l with
  | nil => exact List.Perm.refl _
  | cons x xs ih =>
      exact (insertByCount_perm x (sortByCountDesc xs)).trans (ih.cons x)

theorem count_add_filter_length {α : Type} [DecidableEq α] (x : α) (xs : List α) :
    xs.count x + (xs.filter (fun y => y != x)).length = xs.length := by
  induction xs with
  | nil => simp
  | cons a as ih =>
      by_cases h : a = x
      · rw [h, List.count_cons_self, List.filter_cons]
        have hbne : (x != x) = false := by simp
        rw [hbne]
        simp only [Bool.false_eq_true, if_false, List.length_cons]
        omega
      · rw [List.count_cons_of_ne (fun hx => h hx.symm), List.filter_cons]
        have hbne : (a != x) = true := by simp [h]
        rw [hbne]
        simp only [if_true, List.length_cons]
        omega

theorem mem_of_mem_uniqFuel {α : Type} [DecidableEq α] :
    ∀ (f : ℕ) (l : List α), ∀ a ∈ uniqFuel f l, a ∈ l := by
  intro f
  induction f with
  | zero =>
      intro l a ha
      cases l with
      | nil => simp [uniqFuel] at ha
      | cons x xs => simp [uniqFuel] at ha
  | succ f ih =>
      intro l a ha
      cases l with
      | nil => simp [uniqFuel] at ha
      | cons x xs =>
          rw [uniqFuel] at ha
          rcases List.mem_cons.mp ha with h | h
          · simp [h]
          · exact List.mem_cons_of_mem _ (List.mem_of_mem_filter (ih _ a h))

theorem mem_of_mem_uniqList {α : Type} [DecidableEq α]
    (l : List α) (a : α) (ha : a ∈ uniqList l) : a ∈ l :=
  mem_of_mem_uniqFuel l.length l a ha

theorem uniqFuel_counts_sum {α : Type} [DecidableEq α] :
    ∀ (f : ℕ) (l : List α), l.length ≤ f →
      ((uniqFuel f l).map (fun v => l.count v)).sum = l.length := by
  intro f
  induction f with
  | zero =>
      intro l hl
      have : l = [] := List.length_eq_zero.mp (by omega)
      subst this
      simp [uniqFuel]
  | succ f ih =>
      intro l hl
      cases l with
      | nil => simp [uniqFuel]
      | cons x xs =>
          rw [uniqFuel]
          simp only [List.map_cons, List.sum_cons]
          have hflen : (xs.filter (fun y => y != x)).length ≤ f := by
            have := List.length_filter_le (fun y => y != x) xs
            simp only [List.length_cons] at hl
            omega
          have hmap : (uniqFuel f (xs.filter (fun y => y != x))).map
                (fun v => (x :: xs).count v) =
              (uniqFuel f (xs.filter (fun y => y != x))).map
                (fun v => (xs.filter (fun y => y != x)).count v) := by
            apply List.map_eq_map_iff.mpr
            intro v hv
            have hvf := mem_of_mem_uniqFuel f _ v hv
            have hvne : (v != x) = true := (List.mem_filter.mp hvf).2
            have hne : v ≠ x := by simpa [bne] using hvne
            rw [List.count_cons_of_ne hne]
            exact (@List.count_filter α _ _ (fun y => y != x) v xs hvne).symm
          rw [hmap, ih _ hflen, List.count_cons_self]
          have := count_add_filter_length x xs
          simp only [List.length_cons]
          omega

theorem uniq_counts_sum {α : Type} [DecidableEq α] (l : List α) :
    ((uniqList l).map (fun v => l.count v)).sum = l.length :=
  uniqFuel_counts_sum l.length l le_rfl

theorem round2_abs_err (q : ℚ) : |round2 q - q| ≤ 1 / 200 := by
  unfold round2
  have h : ((round (q * 100) : ℤ) : ℚ) / 100 - q = -((q * 100 - round (q * 100)) / 100) := by
    ring
  rw [h, abs_neg, abs_div]
  have habs : |q * 100 - (round (q * 100) : ℚ)| ≤ 1 / 2 := abs_sub_round (q * 100)
  rw [show |(100 : ℚ)| = 100 by norm_num]
  linarith

theorem sum_map_round2_err (ps : List ℚ) :
    |(ps.map round2).sum - ps.sum| ≤ (ps.length : ℚ) * (1 / 200) := by
  induction ps with
  | nil => simp
  | cons p ps ih =>
      simp only [List.map_cons, List.sum_cons, List.length_cons]
      have h : round2 p + (ps.map round2).sum - (p + ps.sum) =
          (round2 p - p) + ((ps.map round2).sum - ps.sum) := by ring
      rw [h]
      calc |(round2 p - p) + ((ps.map round2).sum - ps.sum)|
          ≤ |round2 p - p| + |(ps.map round2).sum - ps.sum| := abs_add _ _
        _ ≤ 1 / 200 + (ps.length : ℚ) * (1 / 200) := by
            exact add_le_add (round2_abs_err p) ih
        _ = ((ps.length : ℚ) + 1) * (1 / 200) := by ring
        _ = (((ps.length : ℕ) + 1 : ℕ) : ℚ) * (1 / 200) := by push_cast; ring

theorem sum_counts_cast (L : List (Cell × ℕ)) :
    (L.map (fun vc => ((vc.2 : ℕ) : ℚ))).sum = (((L.map Prod.snd).sum : ℕ) : ℚ) := by
  induction L with
  | nil => simp
  | cons a L ih => simp [ih]

theorem valueCounts_counts_sum (cells : List Cell) (h : ∀ c ∈ cells, c ≠ Cell.null) :
    (((valueCounts cells).map Prod.snd).sum : ℕ) = cells.length := by
  unfold valueCounts
  have hfilter : cells.filter (fun c => !isNullCell c) = cells := by
    apply List.filter_eq_self.mpr
    intro c hc
    have := h c hc
    cases c <;> simp [isNullCell] at this ⊢
  rw [hfilter]
  have hperm := (sortByCountDesc_perm
    ((uniqList cells).map (fun v => (v, cells.count v)))).map Prod.snd
  have hsum := hperm.sum_eq
  rw [hsum, List.map_map]
  have : (Prod.snd ∘ fun v => (v, cells.count v)) = fun v => cells.count v := rfl
  rw [this, uniq_counts_sum]

theorem raw_pct_sum (L : List (Cell × ℕ)) (n : ℚ) :
    (L.map (fun vc => (vc.2 : ℚ) / n * 100)).sum =
      (L.map (fun vc => ((vc.2 : ℕ) : ℚ))).sum / n * 100 := by
  induction L with
  | nil => simp
  | cons a L ih =>
      simp only [List.map_cons, List.sum_cons, ih]
      ring

theorem meanOf_replicate (n : ℕ) (c : ℚ) (h : 1 ≤ n) :
    meanOf (List.replicate n c) = some c := by
  unfold meanOf
  have hne : ¬(List.replicate n c).isEmpty = true := by
    simp [List.isEmpty_iff]
    omega
  rw [if_neg hne]
  have hn : (n : ℚ) ≠ 0 := Nat.cast_ne_zero.mpr (by omega)
  simp only [List.sum_replicate, List.length_replicate, nsmul_eq_mul]
  rw [mul_comm, mul_div_assoc, div_self hn, mul_one]

theorem sampleVar_replicate (n : ℕ) (c : ℚ) (h : 2 ≤ n) :
    sampleVar (List.replicate n c) = some 0 := by
  unfold sampleVar
  rw [if_neg (by simp [List.length_replicate]; omega)]
  rw [meanOf_replicate n c (by omega)]
  simp [List.map_replicate, List.sum_replicate]

theorem sampleStd_replicate (n : ℕ) (c : ℚ) (h : 2 ≤ n) :
    sampleStd (List.replicate n c) = some 0 := by
  rw [sampleStd, sampleVar_replicate n c h]
  show ratSqrt 0 = some 0
  norm_num [ratSqrt, isqrt]

theorem skewnessOf_replicate (n : ℕ) (c : ℚ) :
    skewnessOf (List.replicate n c) = (if n < 3 then none else some 0) := by
  unfold skewnessOf
  simp only [List.length_replicate]
  by_cases h3 : n < 3
  · rw [if_pos h3, if_pos h3]
  · rw [if_neg h3, if_neg h3, meanOf_replicate n c (by omega)]
    simp [List.map_replicate, List.sum_replicate]

theorem kurtosisOf_replicate (n : ℕ) (c : ℚ) :
    kurtosisOf (List.replicate n c) = (if n < 4 then none else some 0) := by
  unfold kurtosisOf
  simp only [List.length_replicate]
  by_cases h4 : n < 4
  · rw [if_pos h4, if_pos h4]
  · rw [if_neg h4, if_neg h4, meanOf_replicate n c (by omega)]
    simp [List.map_replicate, List.sum_replicate]

theorem joinComma_split (names : List String) (c : String) (hc : c ∈ names) :
    ∃ s t : String, joinComma names = s ++ (c ++ t) := by
  induction names with
  | nil => simp at hc
  | cons x xs ih =>
      rcases List.mem_cons.mp hc with h | h
      · subst h
        cases xs with
        | nil =>
            refine ⟨"", "", ?_⟩
            show c = "" ++ (c ++ "")
            rw [String.append_empty]
            rfl
        | cons y ys =>
            refine ⟨"", ", " ++ joinComma (y :: ys), ?_⟩
            rfl
      · have hxs : xs ≠ [] := by
          intro hnil
          rw [hnil] at h
          simp at h
        obtain ⟨s, t, hst⟩ := ih h
        cases xs with
        | nil => exact absurd rfl hxs
        | cons y ys =>
            refine ⟨x ++ (", " ++ s), t, ?_⟩
            show x ++ (", " ++ joinComma (y :: ys)) = (x ++ (", " ++ s)) ++ (c ++ t)
            rw [hst, String.append_assoc, String.append_assoc]

/-- Claim C1: every public operation returns a value and no exception ever
propagates.  The code violates this: on a column whose values are all
missing, `value_counts` is empty and the summary section's
`value_counts.index[0]` raises `IndexError`, which nothing catches.  This
theorem evaluates the embedded operation at the failing input — the CSV
`a,b\n1,\n2,\n` (column `b` entirely missing) — and shows the raise. -/
theorem c1_unique_values_raises_on_all_missing :
    exceptRaises (analyze_column_unique_values fsAllMissing pqNone "data.csv" "b") = true ∧
    analyze_column_unique_values fsAllMissing pqNone "data.csv" "b" =
      .error .indexError := by
  exact ⟨by decide, rfl⟩

/-- Claim C10: format dispatch is case-sensitive suffix matching — only
paths ending in the exact lowercase `.csv` or `.parquet` select a parser;
any other path yields the `UnsupportedFormat` error value. -/
theorem c10_extension_dispatch (fs : String → Option String)
    (pq : String → Option DataFrame) (path : String)
    (h1 : strEndsWith path ".csv" = false)
    (h2 : strEndsWith path ".parquet" = false) :
    load_dataset fs pq path = .inr unsupportedFormatMsg := by
  unfold load_dataset
  simp [h1, h2]

/-- Witness for C10 at the mixed-case path `data.CSV`. -/
theorem c10_extension_dispatch_witness :
    load_dataset fsAllMissing pqNone "data.CSV" = .inr unsupportedFormatMsg :=
  c10_extension_dispatch fsAllMissing pqNone "data.CSV" (by decide) (by decide)

/-- Claim C5: the mean report's distribution classification yields exactly
one of the three labels, in order: symmetric iff mean = median, otherwise
right-skewed iff mean > median, otherwise left-skewed; the three labels
are pairwise distinct, so the cases are mutually exclusive and
exhaustive. -/
theorem c5_distribution_trichotomy (m d : ℚ) :
    ((distLine (some m) (some d) = distSymLine) ↔ m = d) ∧
    ((distLine (some m) (some d) = distRightLine) ↔ d < m) ∧
    ((distLine (some m) (some d) = distLeftLine) ↔ m < d) ∧
    (distSymLine ≠ distRightLine ∧ distSymLine ≠ distLeftLine ∧
      distRightLine ≠ distLeftLine) := by
  have hsr : distSymLine ≠ distRightLine := by decide
  have hsl : distSymLine ≠ distLeftLine := by decide
  have hrl : distRightLine ≠ distLeftLine := by decide
  have hred : distLine (some m) (some d) =
      if m = d then distSymLine else if m > d then distRightLine else distLeftLine := rfl
  rw [hred]
  refine ⟨?_, ?_, ?_, hsr, hsl, hrl⟩ <;> split_ifs with hEq hGt
  · exact iff_of_true rfl hEq
  · exact iff_of_false (fun h => hsr h.symm) hEq
  · exact iff_of_false (fun h => hsl h.symm) hEq
  · exact iff_of_false hsr (by rw [hEq]; exact lt_irrefl d)
  · exact iff_of_true rfl hGt
  · exact iff_of_false (fun h => hrl h.symm) hGt
  · exact iff_of_false hsl (by rw [hEq]; exact lt_irrefl d)
  · exact iff_of_false hrl (asymm hGt)
  · exact iff_of_true rfl (lt_of_le_of_ne (not_lt.mp hGt) hEq)

/-- Claim C8: for every requested column name not present in the table,
the validator returns the `ColumnNotFound` error whose message enumerates
every column name in the table's declared order (the message embeds the
full `', '.join` of the column list, and every column name occurs in it as
a contiguous substring), without truncation. -/
theorem c8_column_not_found_lists_all (df : DataFrame) (cn : String)
    (h : (colNames df).contains cn = false) :
    validate_column_exists df cn = .inr (colNotFoundMsg cn (colNames df)) ∧
    ∀ c ∈ colNames df, ∃ s t : String,
      colNotFoundMsg cn (colNames df) = s ++ (c ++ t) := by
  constructor
  · unfold validate_column_exists
    rw [h]
    simp
  · intro c hc
    obtain ⟨s, t, hst⟩ := joinComma_split (colNames df) c hc
    refine ⟨"❌ **Error**: Column '" ++
      (cn ++ "' not found in the dataset.\n\n**Available columns:** ") ++ s, t, ?_⟩
    unfold colNotFoundMsg
    rw [hst]
    simp [String.append_assoc]

/-- Witness for C8: table `[id, name, value]`, lookup `missing`. -/
theorem c8_column_not_found_lists_all_witness :
    validate_column_exists dfThreeCols "missing" =
      .inr (colNotFoundMsg "missing" (colNames dfThreeCols)) ∧
    ∀ c ∈ colNames dfThreeCols, ∃ s t : String,
      colNotFoundMsg "missing" (colNames dfThreeCols) = s ++ (c ++ t) :=
  c8_column_not_found_lists_all dfThreeCols "missing" (by decide)

/-- Claim C7: on an existing column whose inferred dtype is not numeric,
each of the three statistical operations returns the `NotNumeric` error
naming the column's actual dtype (which occurs in the message as a
substring) and computes no statistic — the operation's whole result is the
error message. -/
theorem c7_not_numeric_guard (fs : String → Option String)
    (pq : String → Option DataFrame) (fp cn : String) (df : DataFrame)
    (hload : load_dataset fs pq fp = .inl df)
    (hval : validate_column_exists df cn = .inl true)
    (hdt : isNumericDtype (dtypeOf (colCells df cn)) = false) :
    calculate_column_mean fs pq fp cn = notNumericMsg cn (dtypeOf (colCells df cn)) ∧
    calculate_column_std fs pq fp cn = notNumericMsg cn (dtypeOf (colCells df cn)) ∧
    analyze_column_skewness fs pq fp cn = notNumericMsg cn (dtypeOf (colCells df cn)) ∧
    ∃ s t : String, notNumericMsg cn (dtypeOf (colCells df cn)) =
      s ++ (dtypeName (dtypeOf (colCells df cn)) ++ t) := by
  refine ⟨?_, ?_, ?_, ?_⟩
  · simp only [calculate_column_mean, hload]
    rw [hval]
    simp [hdt]
  · simp only [calculate_column_std, hload]
    rw [hval]
    simp [hdt]
  · simp only [analyze_column_skewness, hload]
    rw [hval]
    simp [hdt]
  · refine ⟨"❌ **Error**: Column '" ++ (cn ++ "' is not numeric. Data type: "), "", ?_⟩
    unfold notNumericMsg
    simp [String.append_assoc, String.append_empty]

/-- Witness for C7: a CSV with a text column `b`. -/
theorem c7_not_numeric_guard_witness :
    calculate_column_mean fsTextCol pqNone "t.csv" "b" =
      notNumericMsg "b" (dtypeOf (colCells dfTextCol "b")) ∧
    calculate_column_std fsTextCol pqNone "t.csv" "b" =
      notNumericMsg "b" (dtypeOf (colCells dfTextCol "b")) ∧
    analyze_column_skewness fsTextCol pqNone "t.csv" "b" =
      notNumericMsg "b" (dtypeOf (colCells dfTextCol "b")) ∧
    ∃ s t : String, notNumericMsg "b" (dtypeOf (colCells dfTextCol "b")) =
      s ++ (dtypeName (dtypeOf (colCells dfTextCol "b")) ++ t) :=
  c7_not_numeric_guard fsTextCol pqNone "t.csv" "b" dfTextCol
    (by decide) (by decide) (by decide)

/-- Claim C9: the loader reads the first line of a delimited-text file and
uses semicolon as the separator if that line contains one, otherwise comma
(first conjunct: any CSV file loads as the parse under the auto-detected
separator); in particular the file `a;b\n1;2\n` loads as a table with
exactly two columns named `a` and `b` (second conjunct). -/
theorem c9_delimiter_detection :
    (∀ (fs : String → Option String) (pq : String → Option DataFrame)
        (path content : String) (df : DataFrame),
      strEndsWith path ".csv" = true → fs path = some content →
      parseCSV (detectSep content) content = some df →
      load_dataset fs pq path = .inl df) ∧
    (∀ (fs : String → Option String) (pq : String → Option DataFrame)
        (path : String),
      strEndsWith path ".csv" = true → fs path = some "a;b\n1;2\n" →
      ∃ df, load_dataset fs pq path = .inl df ∧
        colNames df = ["a", "b"] ∧ df.cols.length = 2) := by
  have hmain : ∀ (fs : String → Option String) (pq : String → Option DataFrame)
      (path content : String) (df : DataFrame),
      strEndsWith path ".csv" = true → fs path = some content →
      parseCSV (detectSep content) content = some df →
      load_dataset fs pq path = .inl df := by
    intro fs pq path content df h1 h2 h3
    unfold load_dataset
    simp [h1, h2, h3]
  refine ⟨hmain, ?_⟩
  intro fs pq path h1 h2
  refine ⟨dfSemi, hmain fs pq path _ dfSemi h1 h2 (by decide), by decide, by decide⟩

/-- Witness for C9 at a concrete file system. -/
theorem c9_delimiter_detection_witness :
    ∃ df, load_dataset fsSemi pqNone "data.csv" = .inl df ∧
      colNames df = ["a", "b"] ∧ df.cols.length = 2 :=
  c9_delimiter_detection.2 fsSemi pqNone "data.csv" (by decide) (by decide)

/-- Claim C2 counterexample: on the column `[x, x, missing]` (missing
values present), `value_counts` drops the missing value, so no `NULL/NaN`
row appears in the table, and the one percentage 66.67 — computed against
all 3 rows — sums to 66.67, far outside any rounding epsilon of 100. -/
theorem c2_null_bucket_counterexample :
    valueCounts cellsNullPct = [(Cell.str "x", 2)] ∧
    ((valueCounts cellsNullPct).map (fun vc => displayCell Dtype.object vc.1)) = ["x"] ∧
    percentList 3 cellsNullPct = [6667 / 100] ∧
    ¬ |(percentList 3 cellsNullPct).sum - 100| ≤
        ((valueCounts cellsNullPct).length : ℚ) * (1 / 200) := by
  have hvc : valueCounts cellsNullPct = [(Cell.str "x", 2)] := by decide
  have harg : ((2 : ℕ) : ℚ) / ((3 : ℕ) : ℚ) * 100 = 200 / 3 := by push_cast; ring
  have hr : round ((200 : ℚ) / 3 * 100) = 6667 := by norm_num [round_eq]
  have hp : percentList 3 cellsNullPct = [6667 / 100] := by
    unfold percentList
    rw [hvc]
    simp only [List.map_cons, List.map_nil]
    congr 1
    unfold round2
    rw [harg, hr]
    norm_num
  refine ⟨hvc, by rw [hvc]; decide, hp, ?_⟩
  rw [hp, hvc]
  simp only [List.sum_cons, List.sum_nil, List.length_cons, List.length_nil]
  refine not_le.mpr ?_
  have habs : |(6667 : ℚ) / 100 + 0 - 100| = 100 - (6667 / 100 + 0) := by
    rw [abs_sub_comm, abs_of_pos (by norm_num)]
  rw [habs]
  norm_num

/-- Claim C2 (amended): each value's percentage is
`round2(count / total_rows * 100)` in `value_counts` order; `value_counts`
excludes missing values, so no `NULL/NaN` bucket row ever appears, and the
rounded percentages sum to 100.00 up to the rounding epsilon (1/200 per
distinct value) exactly when the column has no missing values. -/
theorem c2_percent_sum_amended (cells : List Cell)
    (h1 : ∀ c ∈ cells, c ≠ Cell.null) (h2 : cells ≠ []) :
    |(percentList cells.length cells).sum - 100| ≤
      ((valueCounts cells).length : ℚ) * (1 / 200) := by
  have hn : (cells.length : ℚ) ≠ 0 := by
    have hlen : cells.length ≠ 0 := fun hz => h2 (List.length_eq_zero.mp hz)
    exact_mod_cast hlen
  unfold percentList
  rw [show (valueCounts cells).map
        (fun vc => round2 ((vc.2 : ℚ) / (cells.length : ℚ) * 100)) =
      ((valueCounts cells).map
        (fun vc => (vc.2 : ℚ) / (cells.length : ℚ) * 100)).map round2 by
    rw [List.map_map]
    rfl]
  have hraw : ((valueCounts cells).map
      (fun vc => (vc.2 : ℚ) / (cells.length : ℚ) * 100)).sum = 100 := by
    rw [raw_pct_sum, sum_counts_cast, valueCounts_counts_sum cells h1]
    field_simp
  have hb := sum_map_round2_err ((valueCounts cells).map
    (fun vc => (vc.2 : ℚ) / (cells.length : ℚ) * 100))
  rw [hraw] at hb
  simpa [List.length_map] using hb

/-- Witness for C2 (amended): end-to-end scenario 2's column
`[A, B, A, C, B]`. -/
theorem c2_percent_sum_amended_witness :
    |(percentList cellsScenario2.length cellsScenario2).sum - 100| ≤
      ((valueCounts cellsScenario2).length : ℚ) * (1 / 200) :=
  c2_percent_sum_amended cellsScenario2 (by decide) (by decide)

/-- Claim C6 counterexample: a numeric column with a single row (N = 1)
has sample standard deviation NaN (pandas `std` uses divisor N − 1), which
the report renders as `nan`, not `0.0000`. -/
theorem c6_single_row_std_counterexample :
    sampleVar [(5 : ℚ)] = none ∧ sampleStd [(5 : ℚ)] = none ∧
    fmtOpt 4 (sampleStd [(5 : ℚ)]) = "nan" ∧ ("nan" : String) ≠ "0.0000" := by
  have h : sampleVar [(5 : ℚ)] = none := by unfold sampleVar; norm_num
  have h2 : sampleStd [(5 : ℚ)] = none := by rw [sampleStd, h]; rfl
  exact ⟨h, h2, by rw [h2]; rfl, by decide⟩

/-- Claim C6 (amended): for a constant numeric column of N ≥ 2 identical
rows, std is exactly 0 and renders as `0.0000`; the skewness and kurtosis
statistics are well-defined values without raising — 0 for N ≥ 3 resp.
N ≥ 4 (pandas' zero-variance special case), NaN below those counts; at
N = 1 the sample std is NaN (rendered `nan`), not `0.0000`. -/
theorem c6_constant_column_amended (c : ℚ) (n : ℕ) (h : 2 ≤ n) :
    sampleStd (List.replicate n c) = some 0 ∧
    fmtOpt 4 (sampleStd (List.replicate n c)) = "0.0000" ∧
    skewnessOf (List.replicate n c) = (if n < 3 then none else some 0) ∧
    kurtosisOf (List.replicate n c) = (if n < 4 then none else some 0) := by
  have hs := sampleStd_replicate n c h
  refine ⟨hs, ?_, skewnessOf_replicate n c, kurtosisOf_replicate n c⟩
  rw [hs]
  show formatFixed 4 0 = "0.0000"
  norm_num [formatFixed, round_eq]
  decide

/-- Witness for C6 (amended): four rows of the value 7. -/
theorem c6_constant_column_amended_witness :
    sampleStd (List.replicate 4 (7 : ℚ)) = some 0 ∧
    fmtOpt 4 (sampleStd (List.replicate 4 (7 : ℚ))) = "0.0000" ∧
    skewnessOf (List.replicate 4 (7 : ℚ)) = (if 4 < 3 then none else some 0) ∧
    kurtosisOf (List.replicate 4 (7 : ℚ)) = (if 4 < 4 then none else some 0) :=
  c6_constant_column_amended 7 4 (by norm_num)

/-- Claim C3 counterexample: the numeric-column statistics table of the
dataset summary renders its statistics with `"{:.2f}"`, not 4 decimal
places.  Evaluated at the column `[0, 2, 4]` named `col1` (count 3, mean 2,
std 2, min 0, quartiles 1/2/3, max 4), the rendered row shows the mean as
`2.00` — two decimal places — and the four-decimal form `2.0000` occurs
nowhere in it. -/
theorem c3_summary_two_decimals_counterexample :
    numericStatsRow "col1" 3 (some 2) (some 2) (some 0) (some 1) (some 2)
        (some 3) (some 4) =
      "\n| col1 | 3 | 2.00 | 2.00 | 0.00 | 1.00 | 2.00 | 3.00 | 4.00 |" ∧
    strContains (numericStatsRow "col1" 3 (some 2) (some 2) (some 0) (some 1)
      (some 2) (some 3) (some 4)) "2.0000" = false ∧
    fracLen "2.00" = 2 ∧ (2 : ℕ) ≠ 4 := by
  have hf0 : fmtOpt 2 (some (0 : ℚ)) = "0.00" := by
    rw [fmtOpt]
    norm_num [formatFixed, round_eq]
    decide
  have hf1 : fmtOpt 2 (some (1 : ℚ)) = "1.00" := by
    rw [fmtOpt]
    norm_num [formatFixed, round_eq]
    decide
  have hf2 : fmtOpt 2 (some (2 : ℚ)) = "2.00" := by
    rw [fmtOpt]
    norm_num [formatFixed, round_eq]
    decide
  have hf3 : fmtOpt 2 (some (3 : ℚ)) = "3.00" := by
    rw [fmtOpt]
    norm_num [formatFixed, round_eq]
    decide
  have hf4 : fmtOpt 2 (some (4 : ℚ)) = "4.00" := by
    rw [fmtOpt]
    norm_num [formatFixed, round_eq]
    decide
  have hrow : numericStatsRow "col1" 3 (some 2) (some 2) (some 0) (some 1)
      (some 2) (some 3) (some 4) =
      "\n| col1 | 3 | 2.00 | 2.00 | 0.00 | 1.00 | 2.00 | 3.00 | 4.00 |" := by
    unfold numericStatsRow
    rw [hf0, hf1, hf2, hf3, hf4]
    decide
  exact ⟨hrow, by rw [hrow]; decide, by decide, by decide⟩

/-- Claim C3 (amended): the fixed-point formatter behind the statistical
sections always renders exactly its precision's number of digits after the
decimal point — 4 in the statistical sections of the mean/std/skewness
reports and 2 in percentage sections — but the dataset summary's numeric
statistics table also uses the 2-decimal form, not 4. -/
theorem c3_fixed_decimals_amended :
    (∀ q : ℚ, fracLen (formatFixed 4 q) = 4) ∧
    (∀ q : ℚ, fracLen (formatFixed 2 q) = 2) :=
  ⟨fun q => fracLen_formatFixed 4 q, fun q => fracLen_formatFixed 2 q⟩

/-- Claim C4 counterexample: the column `[65, 100, 135]` has mean 100 and
sample std exactly 35, so CV = 35 — inside the claim's moderate band
15–35 and not `> 35` — yet the code's chain `cv < 15` / `elif cv < 35` /
`else` emits the high-variability line. -/
theorem c4_cv_boundary_counterexample :
    meanOf [(65 : ℚ), 100, 135] = some 100 ∧
    sampleStd [(65 : ℚ), 100, 135] = some 35 ∧
    cvOf (sampleStd [(65 : ℚ), 100, 135]) (meanOf [(65 : ℚ), 100, 135]) =
      CVVal.fin 35 ∧
    classifyCVLine (CVVal.fin 35) = cvHighLine ∧
    ((15 : ℚ) ≤ 35 ∧ (35 : ℚ) ≤ 35 ∧ ¬(35 : ℚ) > 35) ∧
    cvHighLine ≠ cvModerateLine := by
  have hm : meanOf [(65 : ℚ), 100, 135] = some 100 := by
    unfold meanOf
    norm_num
  have hv : sampleVar [(65 : ℚ), 100, 135] = some 1225 := by
    unfold sampleVar meanOf
    norm_num
  have hs : sampleStd [(65 : ℚ), 100, 135] = some 35 := by
    rw [sampleStd, hv]
    show ratSqrt 1225 = some 35
    rw [ratSqrt]
    have h1 : ((1225 : ℚ)).num = 1225 := by norm_num
    have h2 : ((1225 : ℚ)).den = 1 := by norm_num
    rw [h1, h2]
    norm_num
    have h3 : isqrt 1225 = 35 := by decide
    have h4 : isqrt 1 = 1 := by decide
    rw [h3, h4]
    norm_num
  have hval : (35 : ℚ) / 100 * 100 = 35 := by norm_num
  have hcv : cvOf (some 35) (some 100) = CVVal.fin 35 := by
    unfold cvOf
    rw [if_neg (by simp)]
    show CVVal.fin ((35 : ℚ) / 100 * 100) = CVVal.fin 35
    rw [hval]
  have hcl : classifyCVLine (CVVal.fin 35) = cvHighLine := by
    show (if (35 : ℚ) < 15 then cvLowLine
      else if (35 : ℚ) < 35 then cvModerateLine else cvHighLine) = cvHighLine
    rw [if_neg (by norm_num), if_neg (by norm_num)]
  refine ⟨hm, hs, ?_, hcl, ⟨by norm_num, by norm_num, by norm_num⟩, by decide⟩
  rw [hs, hm]
  exact hcv

/-- Claim C4 (amended): CV is `std/mean·100`, special-casing a zero mean
to `+∞` rather than a division error; the classification chain yields
low for CV < 15, moderate for 15 ≤ CV < 35, and high for CV ≥ 35 — so a
CV of exactly 35 classifies as high, and `+∞` classifies as high. -/
theorem c4_cv_classification_amended (s m q : ℚ) :
    (cvOf (some s) (some 0) = CVVal.inf) ∧
    (m ≠ 0 → cvOf (some s) (some m) = CVVal.fin (s / m * 100)) ∧
    (q < 15 → classifyCVLine (CVVal.fin q) = cvLowLine) ∧
    (15 ≤ q → q < 35 → classifyCVLine (CVVal.fin q) = cvModerateLine) ∧
    (35 ≤ q → classifyCVLine (CVVal.fin q) = cvHighLine) ∧
    classifyCVLine CVVal.inf = cvHighLine := by
  refine ⟨?_, ?_, ?_, ?_, ?_, rfl⟩
  · unfold cvOf
    rw [if_pos rfl]
  · intro hm
    unfold cvOf
    rw [if_neg (by simp [hm])]
  · intro hq
    show (if q < 15 then cvLowLine
      else if q < 35 then cvModerateLine else cvHighLine) = cvLowLine
    rw [if_pos hq]
  · intro hq1 hq2
    show (if q < 15 then cvLowLine
      else if q < 35 then cvModerateLine else cvHighLine) = cvModerateLine
    rw [if_neg (not_lt.mpr hq1), if_pos hq2]
  · intro hq
    show (if q < 15 then cvLowLine
      else if q < 35 then cvModerateLine else cvHighLine) = cvHighLine
    rw [if_neg (by linarith), if_neg (not_lt.mpr hq)]

/-- Witness for C4 (amended) at concrete CV values. -/
theorem c4_cv_classification_amended_witness :
    cvOf (some (3 : ℚ)) (some 0) = CVVal.inf ∧
    cvOf (some (3 : ℚ)) (some 2) = CVVal.fin (3 / 2 * 100) ∧
    classifyCVLine (CVVal.fin 10) = cvLowLine ∧
    classifyCVLine (CVVal.fin 20) = cvModerateLine ∧
    classifyCVLine (CVVal.fin 35) = cvHighLine :=
  ⟨(c4_cv_classification_amended 3 2 10).1,
   (c4_cv_classification_amended 3 2 10).2.1 (by norm_num),
   (c4_cv_classification_amended 3 2 10).2.2.1 (by norm_num),
   (c4_cv_classification_amended 3 2 20).2.2.2.1 (by norm_num) (by norm_num),
   (c4_cv_classification_amended 3 2 35).2.2.2.2.1 (by norm_num)⟩
